import Mathlib

/-!
Verification development for the blogicum blog application
(django_sprint4): a shallow embedding of the post-visibility policy,
the listing pipeline (filter, order, paginate) and the mutation
access guards of `blog/views.py`, `blog/utils.py` and `blog/forms.py`,
together with theorems settling the specification's claims about them.

The persistence store is modelled as Lean lists; Django ORM querysets
become list filters, `order_by` becomes an admissible-output relation
(SQL leaves the relative order of ties unspecified), and Django's
`Paginator` / `ListView` pagination semantics are embedded as functions.
-/

namespace Blogicum

/-- Modelled from the spec: the Category entity of the data model
(`models.py` is not among the sources): title omitted (cosmetic), a
unique URL-safe slug and an `is_published` flag (spec section 3). -/
structure Category where
  id : Nat
  slug : String
  is_published : Bool
deriving DecidableEq

/-- Modelled from the spec: the Location entity — a name (omitted,
cosmetic) and an `is_published` flag; locations never gate post
visibility (spec section 3). -/
structure Location where
  id : Nat
  is_published : Bool
deriving DecidableEq

/-- Modelled from the spec: the Post entity — title, body text,
publish timestamp `pub_date` (an instant, modelled as `Int`),
`is_published` flag, author reference (user id), optional category and
optional location (spec section 3).  The related category/location
objects are embedded directly, mirroring Django's resolved foreign-key
attribute access (`post.category`). The image field is omitted
(storage is out of scope). -/
structure Post where
  id : Nat
  title : String
  text : String
  author : Nat
  category : Option Category
  location : Option Location
  pub_date : Int
  is_published : Bool
deriving DecidableEq

/-- Modelled from the spec: the Comment entity — text, author
reference, parent post reference, creation timestamp (spec section 3). -/
structure Comment where
  id : Nat
  text : String
  author : Nat
  post : Nat
  created_at : Int
deriving DecidableEq

/-- A request's viewer identity: Django's `request.user` is either an
`AnonymousUser` or an authenticated `User` (modelled by its id);
an anonymous viewer never equals any author. -/
inductive Viewer where
  | anonymous : Viewer
  | user : Nat → Viewer
deriving DecidableEq

/-- Django `request.user.is_authenticated`. -/
def Viewer.is_authenticated : Viewer → Bool
  | .anonymous => false
  | .user _ => true

/-! ## Single-post detail view (`views.py` lines 104-133, `post_detail`) -/

/-- Result of evaluating a Python expression that may raise
`AttributeError` (attribute access on `None`). -/
inductive PyResult (α : Type) where
  | ok : α → PyResult α
  | attributeError : PyResult α
deriving DecidableEq

/-- views.py line 116: `request.user.is_authenticated and
post.author == request.user`. -/
def is_author_check (p : Post) : Viewer → Bool
  | .anonymous => false
  | .user u => p.author == u

/-- views.py lines 117-121: the Python expression
`post.is_published and post.category.is_published and post.pub_date <= timezone.now()`
with short-circuit evaluation; when `post.is_published` holds and
`post.category` is null, the attribute access `post.category.is_published`
raises `AttributeError`. -/
def is_visible_expr (p : Post) (now : Int) : PyResult Bool :=
  if p.is_published then
    match p.category with
    | none => .attributeError
    | some c => .ok (c.is_published && decide (p.pub_date ≤ now))
  else
    .ok false

/-- Outcome of the post-detail view: `Http404`, an uncaught Python
exception (server error), or a rendered page. -/
inductive DetailOutcome where
  | notFound : DetailOutcome
  | serverError : DetailOutcome
  | rendered : DetailOutcome
deriving DecidableEq

/-- views.py lines 104-133 (`post_detail`): fetch the post by id
(404 when absent; ids are store-assigned and unique, so the first
match is the row), evaluate `is_author` and `is_visible` (the latter
computed unconditionally, so a null-category published post raises
before the author check is ever used), then 404 unless
`is_author or is_visible`. -/
def post_detail (posts : List Post) (viewer : Viewer) (now : Int) (post_id : Nat) :
    DetailOutcome :=
  match posts.find? (fun p => p.id == post_id) with
  | none => .notFound
  | some p =>
    match is_visible_expr p now with
    | .attributeError => .serverError
    | .ok vis => if is_author_check p viewer || vis then .rendered else .notFound

/-- The single-post visibility predicate exactly as the specification
states it (spec section 8): the viewer is the author, or the post is
published with a null-or-published category and a past-or-present
publish timestamp. -/
def spec_is_visible (p : Post) (v : Viewer) (t : Int) : Bool :=
  is_author_check p v ||
    (p.is_published &&
      (match p.category with | none => true | some c => c.is_published) &&
      decide (p.pub_date ≤ t))

/-- The detail-view access outcome the code actually implements, by
cases on the category: with a non-null category the check is exactly
author-or-(published, category published, timestamp past-or-present);
with a null category, a published post raises an attribute error for
every viewer (author included), and an unpublished one is shown only
to its author. -/
def amended_detail_spec (p : Post) (v : Viewer) (t : Int) : DetailOutcome :=
  match p.category with
  | some c =>
    if is_author_check p v || (p.is_published && c.is_published && decide (p.pub_date ≤ t))
    then .rendered else .notFound
  | none =>
    if p.is_published then .serverError
    else if is_author_check p v then .rendered else .notFound

/-! ## Store-level listing filters (`views.py`) -/

/-- views.py lines 87-91 (`IndexListView.get_queryset`): the Django
filter `is_published=True, category__is_published=True,
pub_date__lte=timezone.now()`.  The `category__is_published` lookup
follows the foreign key, so a row whose category is null never
matches (the join finds no related row). -/
def index_filter (now : Int) (p : Post) : Bool :=
  p.is_published &&
    (match p.category with | none => false | some c => c.is_published) &&
    decide (p.pub_date ≤ now)

/-- The home-feed queryset contents before ordering and pagination. -/
def index_queryset_posts (posts : List Post) (now : Int) : List Post :=
  posts.filter (index_filter now)

/-- views.py lines 43-48 (`ProfileDetailView.get_context_data`,
non-owner branch): `author=self.object, is_published=True,
category__is_published=True, pub_date__lte=timezone.now()`; the null
category again fails the `category__is_published` lookup. -/
def profile_visible_filter (owner : Nat) (now : Int) (p : Post) : Bool :=
  p.author == owner && p.is_published &&
    (match p.category with | none => false | some c => c.is_published) &&
    decide (p.pub_date ≤ now)

/-- views.py lines 35-48: the profile-feed contents.  `is_owner` is
`request.user.is_authenticated and request.user == self.object`;
owners get `filter(author=self.object)` with no visibility filter,
everyone else gets the visibility-filtered variant. -/
def profile_posts (posts : List Post) (owner : Nat) (viewer : Viewer) (now : Int) :
    List Post :=
  if viewer == Viewer.user owner then
    posts.filter (fun p => p.author == owner)
  else
    posts.filter (profile_visible_filter owner now)

/-- views.py lines 143-146 (`category_posts`): the reverse relation
`category.posts_by_category` (posts whose category is this category)
filtered by `is_published=True, pub_date__lte=timezone.now()` — the
category's own publication was already checked by the lookup. -/
def category_feed_posts (posts : List Post) (c : Category) (now : Int) : List Post :=
  (posts.filter (fun p => p.category == some c)).filter
    (fun p => p.is_published && decide (p.pub_date ≤ now))

/-- views.py lines 138-141: `get_object_or_404(Category.objects.filter(
is_published=True), slug=category_slug)` — look the slug up among
published categories only. -/
def category_lookup (cats : List Category) (slug : String) : Option Category :=
  (cats.filter (fun c => c.is_published)).find? (fun c => c.slug == slug)

/-- Outcome of the category-feed view: `Http404` from the lookup, or a
page built from the feed contents (ordering and pagination are
modelled separately). -/
inductive FeedOutcome where
  | notFound : FeedOutcome
  | page : List Post → FeedOutcome
deriving DecidableEq

/-- views.py lines 136-159 (`category_posts`): 404 when the slug does
not name a published category, else the filtered feed.  The viewer
identity is a parameter of the request but is never consulted. -/
def category_posts_view (cats : List Category) (posts : List Post)
    (_viewer : Viewer) (slug : String) (now : Int) : FeedOutcome :=
  match category_lookup cats slug with
  | none => .notFound
  | some c => .page (category_feed_posts posts c now)

/-! ## Ordering (`order_by` in `views.py` lines 54, 92, 151)

All three listing scopes end with `.order_by(minus pub_date)` and
nothing else; SQL leaves the relative order of rows with equal keys
unspecified, so `order_by` is embedded as a relation from queryset
contents to admissible ordered outputs. -/

/-- The output list is sorted by `pub_date` descending (each element's
timestamp is greater or equal to every later one). -/
def sorted_by_pub_date_desc (l : List Post) : Prop :=
  l.Pairwise (fun a b => b.pub_date ≤ a.pub_date)

/-- Admissible results of `order_by(minus pub_date)` applied to
`input`: any permutation of the contents that is sorted by `pub_date`
descending. -/
def order_by_pub_date_desc (input output : List Post) : Prop :=
  input.Perm output ∧ sorted_by_pub_date_desc output

/-- Admissible ordered home-feed outputs (views.py line 92). -/
def index_feed_rel (posts : List Post) (now : Int) (out : List Post) : Prop :=
  order_by_pub_date_desc (index_queryset_posts posts now) out

/-- Admissible ordered category-feed outputs (views.py line 151). -/
def category_feed_rel (posts : List Post) (c : Category) (now : Int)
    (out : List Post) : Prop :=
  order_by_pub_date_desc (category_feed_posts posts c now) out

/-- Admissible ordered profile-feed outputs (views.py line 54). -/
def profile_feed_rel (posts : List Post) (owner : Nat) (viewer : Viewer)
    (now : Int) (out : List Post) : Prop :=
  order_by_pub_date_desc (profile_posts posts owner viewer now) out

/-! ## Pagination (`utils.py` lines 9-12 and `views.py` line 84)

`paginate_queryset` wraps Django's `Paginator.get_page`; the home feed
instead sets `paginate_by = 10` and inherits Django's
`ListView.paginate_queryset`.  Both library behaviours are embedded
from Django's documented semantics (orphans 0,
allow_empty_first_page True). -/

/-- The page parameter as read from the request: absent, a string that
is not an integer literal, the special string accepted by `ListView`
meaning the last page, or an integer. -/
inductive PageParam where
  | missing : PageParam
  | notAnInt : PageParam
  | lastKeyword : PageParam
  | num : Int → PageParam
deriving DecidableEq

/-- Django `InvalidPage` subclasses raised by `validate_number`. -/
inductive PageError where
  | pageNotAnInteger : PageError
  | emptyPage : PageError
deriving DecidableEq

/-- Django `Paginator.num_pages` with `orphans = 0` and
`allow_empty_first_page = True`: `ceil(max(1, count) / per_page)`. -/
def num_pages (count per_page : Nat) : Nat :=
  (max 1 count + per_page - 1) / per_page

/-- Django `Paginator.validate_number`: a non-integer input (including
an absent one and the last-page keyword, neither of which survives
`int(...)`) raises `PageNotAnInteger`; an integer below 1 or above
`num_pages` (page 1 of an empty paginator excepted) raises
`EmptyPage`. -/
def validate_number (np : Nat) (p : PageParam) : Except PageError Int :=
  match p with
  | .missing => .error .pageNotAnInteger
  | .notAnInt => .error .pageNotAnInteger
  | .lastKeyword => .error .pageNotAnInteger
  | .num n =>
    if n < 1 then .error .emptyPage
    else if (np : Int) < n then
      if n = 1 then .ok 1 else .error .emptyPage
    else .ok n

/-- Django `Paginator.get_page`: `PageNotAnInteger` falls back to page
1, `EmptyPage` falls back to the last page. -/
def get_page_number (np : Nat) (p : PageParam) : Nat :=
  match validate_number np p with
  | .ok n => n.toNat
  | .error .pageNotAnInteger => 1
  | .error .emptyPage => np

/-- The slice of the ordered queryset shown on (1-based) page `n`. -/
def page_slice (l : List Post) (per_page n : Nat) : List Post :=
  (l.drop ((n - 1) * per_page)).take per_page

/-- utils.py lines 9-12 (`paginate_queryset`):
`Paginator(queryset, per_page).get_page(request.GET.get(page))` —
returns the resolved page number and its slice, and can never raise. -/
def paginate_queryset (l : List Post) (per_page : Nat) (p : PageParam) :
    Nat × List Post :=
  let np := num_pages l.length per_page
  let n := get_page_number np p
  (n, page_slice l per_page n)

/-- Django `ListView.paginate_queryset`, used by `IndexListView`
through `paginate_by = 10` (views.py line 84): a missing parameter
defaults to 1 and the last-page keyword to `num_pages`; any other
non-integer raises `Http404`, and `paginator.page(number)` turns an
out-of-range number's `InvalidPage` into `Http404` as well. -/
def listview_paginate (l : List Post) (per_page : Nat) (p : PageParam) :
    Except Unit (Nat × List Post) :=
  let np := num_pages l.length per_page
  let parsed : Except Unit Int :=
    match p with
    | .missing => .ok 1
    | .num n => .ok n
    | .lastKeyword => .ok (np : Int)
    | .notAnInt => .error ()
  match parsed with
  | .error _ => .error ()
  | .ok n =>
    match validate_number np (.num n) with
    | .ok m => .ok (m.toNat, page_slice l per_page m.toNat)
    | .error _ => .error ()

/-! ## Mutation guards (`views.py` update and delete views) -/

/-- Outcome of a guarded mutation request. -/
inductive MutationOutcome where
  | redirectToPostDetail : Nat → MutationOutcome
  | proceeded : MutationOutcome
deriving DecidableEq

/-- views.py line 187: the Python comparison `post.author != request.user`
— an anonymous user differs from every author. -/
def author_ne (p : Post) : Viewer → Bool
  | .anonymous => true
  | .user u => !(p.author == u)

/-- views.py line 234: `comment.author != request.user`. -/
def comment_author_ne (c : Comment) : Viewer → Bool
  | .anonymous => true
  | .user u => !(c.author == u)

/-- views.py lines 184-189 (`PostUpdateView.dispatch`): the fetched
post is `target`; when `post.author != request.user or not
request.user.is_authenticated`, respond with a redirect to the post's
detail view and leave the store untouched; otherwise proceed, the
framework applying the submitted edit to the row. -/
def post_update_view (posts : List Post) (target : Post) (actor : Viewer)
    (edit : Post → Post) : MutationOutcome × List Post :=
  if author_ne target actor || !actor.is_authenticated then
    (.redirectToPostDetail target.id, posts)
  else
    (.proceeded, posts.map (fun q => if q.id == target.id then edit q else q))

/-- views.py lines 231-236 (`CommentUpdateView.dispatch`): same guard;
the denial redirect targets the parent post's detail view. -/
def comment_update_view (comments : List Comment) (target : Comment)
    (actor : Viewer) (edit : Comment → Comment) : MutationOutcome × List Comment :=
  if comment_author_ne target actor || !actor.is_authenticated then
    (.redirectToPostDetail target.post, comments)
  else
    (.proceeded, comments.map (fun q => if q.id == target.id then edit q else q))

/-- Outcome of a delete request by an authenticated actor. -/
inductive DeleteOutcome where
  | notFound : DeleteOutcome
  | deleted : DeleteOutcome
deriving DecidableEq

/-- views.py lines 245-259 (`PostDeleteView`): `get_queryset` is
`Post.objects.filter(author=self.request.user)`, the framework fetches
the pk inside that queryset (404 when absent) and on confirmation
deletes the fetched row.  `LoginRequiredMixin` has already ensured the
actor is authenticated. -/
def post_delete_view (posts : List Post) (actor : Nat) (post_id : Nat) :
    DeleteOutcome × List Post :=
  let qs := posts.filter (fun p => p.author == actor)
  match qs.find? (fun p => p.id == post_id) with
  | none => (.notFound, posts)
  | some _ =>
    (.deleted, posts.eraseP (fun p => p.id == post_id && p.author == actor))

/-- views.py lines 262-274 (`CommentDeleteView`): the same
ownership-scoped queryset for comments. -/
def comment_delete_view (comments : List Comment) (actor : Nat)
    (comment_id : Nat) : DeleteOutcome × List Comment :=
  let qs := comments.filter (fun c => c.author == actor)
  match qs.find? (fun c => c.id == comment_id) with
  | none => (.notFound, comments)
  | some _ =>
    (.deleted, comments.eraseP (fun c => c.id == comment_id && c.author == actor))

/-! ## Creation and forms (`views.py`, `forms.py`) -/

/-- The fields of `PostCreateForm` (forms.py lines 8-11): title, text,
category, location, pub_date, is_published — the author is not among
them (the image field is omitted with the storage layer). -/
structure PostFormData where
  title : String
  text : String
  category : Option Category
  location : Option Location
  pub_date : Int
  is_published : Bool
deriving DecidableEq

/-- The single field of `CommentForm` (forms.py line 30). -/
structure CommentFormData where
  text : String
deriving DecidableEq

/-- views.py lines 167-169 (`PostCreateView.form_valid`):
`form.instance.author = self.request.user` before saving; the id is
store-assigned. -/
def post_create_view (form : PostFormData) (request_user : Nat) (new_id : Nat) :
    Post :=
  { id := new_id, title := form.title, text := form.text,
    author := request_user, category := form.category,
    location := form.location, pub_date := form.pub_date,
    is_published := form.is_published }

/-- views.py lines 207-210 (`CommentCreateView.form_valid`):
`form.instance.author = self.request.user` and
`form.instance.post = self.this_post` before saving. -/
def comment_create_view (form : CommentFormData) (request_user : Nat)
    (this_post : Nat) (new_id : Nat) (created : Int) : Comment :=
  { id := new_id, text := form.text, author := request_user,
    post := this_post, created_at := created }

/-- Validation failures of a model-choice form field. -/
inductive FormError where
  | invalidChoice : FormError
deriving DecidableEq

/-- forms.py lines 19-24 with Django `ModelChoiceField` validation:
the field's queryset is `filter(is_published=True)`, an empty
submission is accepted for the optional field, and a submitted pk is
accepted only when it names a row of that restricted queryset. -/
def clean_category_choice (cats : List Category) (choice : Option Nat) :
    Except FormError (Option Category) :=
  match choice with
  | none => .ok none
  | some cid =>
    match (cats.filter (fun c => c.is_published)).find? (fun c => c.id == cid) with
    | none => .error .invalidChoice
    | some c => .ok (some c)

/-- forms.py lines 19-24, the location field: same restriction. -/
def clean_location_choice (locs : List Location) (choice : Option Nat) :
    Except FormError (Option Location) :=
  match choice with
  | none => .ok none
  | some lid =>
    match (locs.filter (fun l => l.is_published)).find? (fun l => l.id == lid) with
    | none => .error .invalidChoice
    | some l => .ok (some l)

/-! ## Theorems settling the claims -/

/-- C1 counterexample: a published post with a null category, viewed by
its own author — the specification's predicate grants access (the
viewer is the author), but `post_detail` evaluates
`post.category.is_published` on a null category and raises, yielding a
server error rather than a rendered page or NotFound. -/
theorem blog_C1_counterexample :
    spec_is_visible
        { id := 7, title := "t", text := "b", author := 1, category := none,
          location := none, pub_date := 0, is_published := true }
        (Viewer.user 1) 0 = true ∧
    post_detail
        [{ id := 7, title := "t", text := "b", author := 1, category := none,
           location := none, pub_date := 0, is_published := true }]
        (Viewer.user 1) 0 7 = DetailOutcome.serverError := by
  decide

/-- C1 amended: for a post with a non-null category, the detail view
grants access iff the viewer is the author or the post is published
with a published category and `pub_date <= now` (inclusive), else
NotFound; for a null-category post, a published one raises an
attribute error for every viewer (the author included), and an
unpublished one is rendered only for its author; a missing post id is
NotFound. -/
theorem blog_C1_amended (posts : List Post) (v : Viewer) (t : Int) (pid : Nat) :
    (∀ p, posts.find? (fun q => q.id == pid) = some p →
      post_detail posts v t pid = amended_detail_spec p v t) ∧
    (posts.find? (fun q => q.id == pid) = none →
      post_detail posts v t pid = DetailOutcome.notFound) := by
  constructor
  · intro p hp
    unfold post_detail amended_detail_spec is_visible_expr
    rw [hp]
    cases hc : p.category <;> cases hpub : p.is_published <;> simp [hc, hpub]
  · intro hp
    unfold post_detail
    rw [hp]

/-- C1 amended, witness: a published past post with a published
category is rendered for a stranger, and an unknown id is NotFound. -/
theorem blog_C1_amended_witness :
    post_detail
        [{ id := 3, title := "t", text := "b", author := 2,
           category := some { id := 1, slug := "c", is_published := true },
           location := none, pub_date := 0, is_published := true }]
        (Viewer.user 9) 5 3 =
      amended_detail_spec
        { id := 3, title := "t", text := "b", author := 2,
          category := some { id := 1, slug := "c", is_published := true },
          location := none, pub_date := 0, is_published := true }
        (Viewer.user 9) 5 ∧
    post_detail [] (Viewer.user 9) 5 3 = DetailOutcome.notFound :=
  ⟨(blog_C1_amended _ (Viewer.user 9) 5 3).1 _ (by decide),
   (blog_C1_amended [] (Viewer.user 9) 5 3).2 (by rfl)⟩

/-- C2 counterexample: a published, past-dated post with a null
category satisfies the specification's visibility predicate for an
anonymous viewer, yet the home-feed filter drops it, the non-owner
profile filter drops it, and the detail view raises a server error on
it — the null category hides the post everywhere. -/
theorem blog_C2_counterexample :
    spec_is_visible
        { id := 1, title := "t", text := "b", author := 1, category := none,
          location := none, pub_date := 0, is_published := true }
        Viewer.anonymous 0 = true ∧
    index_queryset_posts
        [{ id := 1, title := "t", text := "b", author := 1, category := none,
           location := none, pub_date := 0, is_published := true }] 0 = [] ∧
    profile_posts
        [{ id := 1, title := "t", text := "b", author := 1, category := none,
           location := none, pub_date := 0, is_published := true }]
        1 Viewer.anonymous 0 = [] ∧
    post_detail
        [{ id := 1, title := "t", text := "b", author := 1, category := none,
           location := none, pub_date := 0, is_published := true }]
        Viewer.anonymous 0 1 = DetailOutcome.serverError := by
  decide

/-- C2 amended: a null category always hides the post from the
visibility paths — the `category__is_published` store lookups of the
home feed and the non-owner profile feed never match it, and in the
detail check the null category raises an attribute error when the post
is published (and yields a plain false when it is not). -/
theorem blog_C2_amended (p : Post) (now : Int) (owner : Nat)
    (h : p.category = none) :
    index_filter now p = false ∧
    profile_visible_filter owner now p = false ∧
    (p.is_published = true → is_visible_expr p now = PyResult.attributeError) ∧
    (p.is_published = false → is_visible_expr p now = PyResult.ok false) := by
  refine ⟨?_, ?_, ?_, ?_⟩
  · unfold index_filter
    rw [h]
    simp
  · unfold profile_visible_filter
    rw [h]
    simp
  · intro hpub
    unfold is_visible_expr
    rw [h, hpub]
    simp
  · intro hpub
    unfold is_visible_expr
    rw [hpub]
    simp

/-- C2 amended, witness at a concrete published null-category post. -/
theorem blog_C2_amended_witness :
    index_filter 0
        { id := 1, title := "t", text := "b", author := 1, category := none,
          location := none, pub_date := 0, is_published := true } = false ∧
    profile_visible_filter 1 0
        { id := 1, title := "t", text := "b", author := 1, category := none,
          location := none, pub_date := 0, is_published := true } = false ∧
    is_visible_expr
        { id := 1, title := "t", text := "b", author := 1, category := none,
          location := none, pub_date := 0, is_published := true } 0 =
      PyResult.attributeError :=
  have h := blog_C2_amended
    { id := 1, title := "t", text := "b", author := 1, category := none,
      location := none, pub_date := 0, is_published := true } 0 1 (by rfl)
  ⟨h.1, h.2.1, h.2.2.1 (by rfl)⟩

/-- C4: for a category whose `is_published` is false (its slug naming
no other category — slugs are unique in the store), the category-feed
view answers NotFound for every viewer, every post set and every
instant: the slug lookup runs inside
`Category.objects.filter(is_published=True)`. -/
theorem blog_C4 (cats : List Category) (posts : List Post) (viewer : Viewer)
    (now : Int) (C : Category) (_hC : C ∈ cats)
    (hpub : C.is_published = false)
    (huniq : ∀ c ∈ cats, c.slug = C.slug → c = C) :
    category_posts_view cats posts viewer C.slug now = FeedOutcome.notFound := by
  unfold category_posts_view category_lookup
  have hnone :
      (cats.filter (fun c => c.is_published)).find? (fun c => c.slug == C.slug)
        = none := by
    rw [List.find?_eq_none]
    intro c hc hslug
    rw [List.mem_filter] at hc
    have heq : c = C := huniq c hc.1 (by simpa using hslug)
    rw [heq, hpub] at hc
    exact absurd hc.2 (by simp)
  rw [hnone]

/-- C4 witness: a concrete unpublished category's feed is NotFound
even for the author of a published, past-dated post filed under it. -/
theorem blog_C4_witness :
    category_posts_view
        [{ id := 4, slug := "hidden", is_published := false }]
        [{ id := 1, title := "t", text := "b", author := 5,
           category := some { id := 4, slug := "hidden", is_published := false },
           location := none, pub_date := 0, is_published := true }]
        (Viewer.user 5) "hidden" 0 = FeedOutcome.notFound :=
  blog_C4 _ _ _ _ { id := 4, slug := "hidden", is_published := false }
    (by decide) (by rfl) (by decide)

/-- C6: an update attempt on a post or a comment by any actor other
than the resource's authenticated author — an authenticated non-owner
or an anonymous actor — is answered with a redirect to the parent
post's detail view, and the store is returned unchanged, whatever edit
was submitted. -/
theorem blog_C6 (posts : List Post) (target : Post) (comments : List Comment)
    (ctarget : Comment) (actor : Viewer) (pedit : Post → Post)
    (cedit : Comment → Comment)
    (hp : actor ≠ Viewer.user target.author)
    (hc : actor ≠ Viewer.user ctarget.author) :
    post_update_view posts target actor pedit =
      (MutationOutcome.redirectToPostDetail target.id, posts) ∧
    comment_update_view comments ctarget actor cedit =
      (MutationOutcome.redirectToPostDetail ctarget.post, comments) := by
  constructor
  · unfold post_update_view
    cases actor with
    | anonymous => simp [author_ne]
    | user u =>
      have hne : target.author ≠ u := fun h => hp (by rw [h])
      simp [author_ne, beq_eq_false_iff_ne.mpr hne]
  · unfold comment_update_view
    cases actor with
    | anonymous => simp [comment_author_ne]
    | user u =>
      have hne : ctarget.author ≠ u := fun h => hc (by rw [h])
      simp [comment_author_ne, beq_eq_false_iff_ne.mpr hne]

/-- C6 witness: a concrete authenticated non-owner's edits to another
user's post and comment both bounce back to the detail view with the
store intact. -/
theorem blog_C6_witness :
    post_update_view
        [{ id := 3, title := "t", text := "b", author := 2, category := none,
           location := none, pub_date := 0, is_published := true }]
        { id := 3, title := "t", text := "b", author := 2, category := none,
          location := none, pub_date := 0, is_published := true }
        (Viewer.user 9) (fun p => { p with title := "hacked" }) =
      (MutationOutcome.redirectToPostDetail 3,
        [{ id := 3, title := "t", text := "b", author := 2, category := none,
           location := none, pub_date := 0, is_published := true }]) ∧
    comment_update_view
        [{ id := 6, text := "c", author := 2, post := 3, created_at := 0 }]
        { id := 6, text := "c", author := 2, post := 3, created_at := 0 }
        (Viewer.user 9) (fun c => { c with text := "hacked" }) =
      (MutationOutcome.redirectToPostDetail 3,
        [{ id := 6, text := "c", author := 2, post := 3, created_at := 0 }]) :=
  blog_C6 _ _ _ _ (Viewer.user 9) _ _ (by decide) (by decide)

/-- C9: every stored post or comment created through the create views
carries the requesting user as its author, whatever the submitted form
data — the author is not a form field and is assigned server-side in
`form_valid`. -/
theorem blog_C9 (form : PostFormData) (cform : CommentFormData)
    (u this_post new_id cid : Nat) (created : Int) :
    (post_create_view form u new_id).author = u ∧
    (comment_create_view cform u this_post cid created).author = u :=
  ⟨rfl, rfl⟩

/-- C10: whenever the post form's category or location choice
validates to a selected row, that row is published — the field
querysets are restricted to `is_published=True`, for creation and
update alike. -/
theorem blog_C10 (cats : List Category) (locs : List Location)
    (cc lc : Option Nat) (c : Category) (l : Location) :
    (clean_category_choice cats cc = Except.ok (some c) →
      c.is_published = true) ∧
    (clean_location_choice locs lc = Except.ok (some l) →
      l.is_published = true) := by
  constructor
  · intro h
    cases cc with
    | none => exact absurd h (by simp [clean_category_choice])
    | some cid =>
      simp only [clean_category_choice] at h
      cases hf : (cats.filter (fun x => x.is_published)).find?
          (fun x => x.id == cid) with
      | none => rw [hf] at h; exact absurd h (by simp)
      | some c0 =>
        rw [hf] at h
        have hcc : c0 = c := by simpa using h
        have hmem : c0 ∈ cats.filter (fun x => x.is_published) :=
          List.mem_of_find?_eq_some hf
        rw [List.mem_filter] at hmem
        rw [← hcc]
        simpa using hmem.2
  · intro h
    cases lc with
    | none => exact absurd h (by simp [clean_location_choice])
    | some lid =>
      simp only [clean_location_choice] at h
      cases hf : (locs.filter (fun x => x.is_published)).find?
          (fun x => x.id == lid) with
      | none => rw [hf] at h; exact absurd h (by simp)
      | some l0 =>
        rw [hf] at h
        have hll : l0 = l := by simpa using h
        have hmem : l0 ∈ locs.filter (fun x => x.is_published) :=
          List.mem_of_find?_eq_some hf
        rw [List.mem_filter] at hmem
        rw [← hll]
        simpa using hmem.2

/-- C10 witness: with one published and one unpublished category and
location in the store, choosing the published ones validates, and the
validated rows are published. -/
theorem blog_C10_witness :
    ({ id := 1, slug := "c", is_published := true } : Category).is_published
        = true ∧
    ({ id := 1, is_published := true } : Location).is_published = true :=
  ⟨(blog_C10 [{ id := 2, slug := "d", is_published := false },
              { id := 1, slug := "c", is_published := true }]
      [{ id := 1, is_published := true }] (some 1) (some 1)
      { id := 1, slug := "c", is_published := true }
      { id := 1, is_published := true }).1 (by rfl),
   (blog_C10 [{ id := 1, slug := "c", is_published := true }]
      [{ id := 2, is_published := false }, { id := 1, is_published := true }]
      (some 1) (some 1)
      { id := 1, slug := "c", is_published := true }
      { id := 1, is_published := true }).2 (by rfl)⟩

/-- The non-owner profile-feed filter as claim C5 words it: the full
visibility predicate with a null-or-published category. -/
def claimed_profile_filter (owner : Nat) (now : Int) (p : Post) : Bool :=
  p.author == owner && p.is_published &&
    (match p.category with | none => true | some c => c.is_published) &&
    decide (p.pub_date ≤ now)

/-- C5 counterexample: a published, past-dated, null-category post by
user 1 satisfies the claimed non-owner visibility predicate
(null-or-published category), yet an anonymous viewer's profile feed
of user 1 is empty — the code's filter demands a published non-null
category. -/
theorem blog_C5_counterexample :
    claimed_profile_filter 1 0
        { id := 1, title := "t", text := "b", author := 1, category := none,
          location := none, pub_date := 0, is_published := true } = true ∧
    profile_posts
        [{ id := 1, title := "t", text := "b", author := 1, category := none,
           location := none, pub_date := 0, is_published := true }]
        1 Viewer.anonymous 0 = [] := by
  decide

/-- C5 amended: the profile feed of user U holds exactly U's posts,
unfiltered, when the viewer is U; for every other viewer it holds
exactly U's posts that are published with a non-null published
category and `pub_date <= now`. -/
theorem blog_C5_amended (posts : List Post) (owner : Nat) (v : Viewer)
    (now : Int) (p : Post) :
    p ∈ profile_posts posts owner v now ↔
      (p ∈ posts ∧ p.author = owner ∧
        (v = Viewer.user owner ∨
          (p.is_published = true ∧
            (∃ c, p.category = some c ∧ c.is_published = true) ∧
            p.pub_date ≤ now))) := by
  unfold profile_posts
  by_cases hv : v = Viewer.user owner
  · simp [hv, List.mem_filter]
  · have hvb : (v == Viewer.user owner) = false := beq_eq_false_iff_ne.mpr hv
    rw [hvb]
    simp only [Bool.false_eq_true, if_false, List.mem_filter,
      profile_visible_filter, hv, false_or]
    cases hc : p.category with
    | none => simp [hc]
    | some c => simp [hc, and_assoc]

/-- With a positive page size the paginator always has at least one
page, the first page being allowed even when empty. -/
lemma one_le_num_pages (count per : Nat) (h : 0 < per) :
    1 ≤ num_pages count per := by
  unfold num_pages
  have h1 : 1 ≤ max 1 count := Nat.le_max_left 1 count
  rw [Nat.le_div_iff_mul_le h]
  omega

/-- The resolved page number of `Paginator.get_page` is always within
`[1, num_pages]`. -/
lemma get_page_number_mem (np : Nat) (hnp : 1 ≤ np) (p : PageParam) :
    1 ≤ get_page_number np p ∧ get_page_number np p ≤ np := by
  cases p <;> simp only [get_page_number, validate_number] <;> try omega
  case num n =>
    split_ifs with h1 h2 h3 <;> simp <;> omega

/-- Page numbers below 1 resolve, via `EmptyPage`, to the last page. -/
lemma get_page_number_underflow (np : Nat) (n : Int) (h : n < 1) :
    get_page_number np (.num n) = np := by
  simp only [get_page_number, validate_number, if_pos h]

/-- Page numbers beyond `num_pages` resolve to the last page. -/
lemma get_page_number_overflow (np : Nat) (hnp : 1 ≤ np) (n : Int)
    (h : (np : Int) < n) :
    get_page_number np (.num n) = np := by
  simp only [get_page_number, validate_number]
  rw [if_neg (by omega), if_pos h, if_neg (by omega)]

/-- The last page requested directly is returned as is. -/
lemma get_page_number_last (np : Nat) (hnp : 1 ≤ np) :
    get_page_number np (.num (np : Int)) = np := by
  simp only [get_page_number, validate_number]
  rw [if_neg (by omega), if_neg (by omega)]
  simp

/-- Page 1 requested directly is returned as is. -/
lemma get_page_number_one (np : Nat) (hnp : 1 ≤ np) :
    get_page_number np (.num 1) = 1 := by
  simp only [get_page_number, validate_number]
  rw [if_neg (by omega), if_neg (by omega)]
  rfl

/-- C3 counterexample: two posts paginated one per page.  Requesting
page 0 of `paginate_queryset` does not error but yields page 2 — the
last page, not page 1 as the claim states for underflow — and so
differs from requesting the boundary page 1 directly; and the home
feed's framework pagination raises (Http404) on page 0 instead of
clamping. -/
theorem blog_C3_counterexample :
    paginate_queryset
        [{ id := 1, title := "a", text := "x", author := 1, category := none,
           location := none, pub_date := 5, is_published := true },
         { id := 2, title := "b", text := "y", author := 1, category := none,
           location := none, pub_date := 3, is_published := true }]
        1 (PageParam.num 0) =
      (2, [{ id := 2, title := "b", text := "y", author := 1, category := none,
             location := none, pub_date := 3, is_published := true }]) ∧
    paginate_queryset
        [{ id := 1, title := "a", text := "x", author := 1, category := none,
           location := none, pub_date := 5, is_published := true },
         { id := 2, title := "b", text := "y", author := 1, category := none,
           location := none, pub_date := 3, is_published := true }]
        1 (PageParam.num 1) =
      (1, [{ id := 1, title := "a", text := "x", author := 1, category := none,
             location := none, pub_date := 5, is_published := true }]) ∧
    listview_paginate
        [{ id := 1, title := "a", text := "x", author := 1, category := none,
           location := none, pub_date := 5, is_published := true },
         { id := 2, title := "b", text := "y", author := 1, category := none,
           location := none, pub_date := 3, is_published := true }]
        1 (PageParam.num 0) = Except.error () := by
  refine ⟨by rfl, by rfl, by rfl⟩

/-- C3 amended: the category and profile feeds paginate through
`paginate_queryset` (`Paginator.get_page`), which never raises: the
resolved page is always in range, a missing or non-numeric page
parameter yields page 1, and any out-of-range numeric page — below 1
as well as beyond the last — yields the last page (underflow clamps to
the last page, not page 1).  The home feed paginates through the
framework's `ListView` machinery, which raises NotFound on every
out-of-range numeric page and on non-numeric input. -/
theorem blog_C3_amended (l : List Post) (per : Nat) (hper : 0 < per) :
    (∀ p : PageParam, 1 ≤ (paginate_queryset l per p).1 ∧
        (paginate_queryset l per p).1 ≤ num_pages l.length per) ∧
    (∀ n : Int, n < 1 ∨ (num_pages l.length per : Int) < n →
        paginate_queryset l per (.num n) =
          paginate_queryset l per (.num (num_pages l.length per))) ∧
    (paginate_queryset l per .missing = paginate_queryset l per (.num 1) ∧
      paginate_queryset l per .notAnInt = paginate_queryset l per (.num 1) ∧
      paginate_queryset l per .lastKeyword = paginate_queryset l per (.num 1)) ∧
    (∀ n : Int, n < 1 ∨ (num_pages l.length per : Int) < n →
        listview_paginate l per (.num n) = Except.error ()) ∧
    listview_paginate l per .notAnInt = Except.error () := by
  have hnp : 1 ≤ num_pages l.length per := one_le_num_pages l.length per hper
  refine ⟨?_, ?_, ?_, ?_, ?_⟩
  · intro p
    unfold paginate_queryset
    exact get_page_number_mem (num_pages l.length per) hnp p
  · intro n hn
    simp only [paginate_queryset]
    rcases hn with hn | hn
    · rw [get_page_number_underflow _ n hn,
        get_page_number_last _ hnp]
    · rw [get_page_number_overflow _ hnp n hn,
        get_page_number_last _ hnp]
  · refine ⟨?_, ?_, ?_⟩ <;>
      · simp only [paginate_queryset]
        rw [get_page_number_one _ hnp]
        rfl
  · intro n hn
    simp only [listview_paginate, validate_number]
    rcases hn with hn | hn
    · rw [if_pos hn]
    · rw [if_neg (by omega), if_pos hn, if_neg (by omega)]
  · rfl

/-- C3 amended, witness: one post, one page per post. -/
theorem blog_C3_amended_witness :
    1 ≤ (paginate_queryset
        [{ id := 1, title := "a", text := "x", author := 1, category := none,
           location := none, pub_date := 5, is_published := true }]
        1 (PageParam.num 4)).1 ∧
    (paginate_queryset
        [{ id := 1, title := "a", text := "x", author := 1, category := none,
           location := none, pub_date := 5, is_published := true }]
        1 (PageParam.num 4)).1 ≤
      num_pages
        ([{ id := 1, title := "a", text := "x", author := 1, category := none,
            location := none, pub_date := 5, is_published := true }]
          : List Post).length 1 :=
  (blog_C3_amended
    [{ id := 1, title := "a", text := "x", author := 1, category := none,
       location := none, pub_date := 5, is_published := true }]
    1 (by decide)).1 (PageParam.num 4)

/-- When no row with the requested id belongs to the actor, the
ownership-scoped queryset contains no row with that id. -/
lemma owned_find_eq_none {α : Type} (l : List α) (auth idf : α → Nat)
    (actor pid : Nat) (h : ∀ x ∈ l, idf x = pid → auth x ≠ actor) :
    (l.filter (fun x => auth x == actor)).find? (fun x => idf x == pid)
      = none := by
  rw [List.find?_eq_none]
  intro x hx hpid
  rw [List.mem_filter] at hx
  exact absurd (by simpa using hx.2)
    (h x hx.1 (by simpa using hpid))

/-- When the actor owns a row with the requested id, the
ownership-scoped queryset finds one. -/
lemma owned_find_isSome {α : Type} (l : List α) (auth idf : α → Nat)
    (actor pid : Nat) (x : α) (hx : x ∈ l) (hid : idf x = pid)
    (hauth : auth x = actor) :
    ((l.filter (fun y => auth y == actor)).find?
      (fun y => idf y == pid)).isSome := by
  rw [List.find?_isSome]
  exact ⟨x, List.mem_filter.mpr ⟨hx, by simp [hauth]⟩, by simp [hid]⟩

/-- Erasing the row matched by id and owner removes every row with
that id, provided ids are unique in the store. -/
lemma eraseP_id_absent {α : Type} (l : List α) (auth idf : α → Nat)
    (actor pid : Nat) (x : α) (hx : x ∈ l) (hid : idf x = pid)
    (hauth : auth x = actor) (hnd : (l.map idf).Nodup) :
    ∀ y ∈ l.eraseP (fun z => idf z == pid && auth z == actor),
      idf y ≠ pid := by
  have hPx : (idf x == pid && auth x == actor) = true := by
    simp [hid, hauth]
  obtain ⟨a, l₁, l₂, _, hPa, hl, herase⟩ :=
    List.exists_of_eraseP (p := fun z => idf z == pid && auth z == actor)
      hx hPx
  have hida : idf a = pid := by
    have := hPa
    simp only [Bool.and_eq_true, beq_iff_eq] at this
    exact this.1
  rw [herase]
  intro y hy hidy
  have hmap : (l.map idf) = l₁.map idf ++ idf a :: l₂.map idf := by
    rw [hl]; simp
  rw [hmap] at hnd
  have hnotmem : idf a ∉ l₁.map idf ++ l₂.map idf := by
    have hmid := List.nodup_middle.mp hnd
    exact (List.nodup_cons.mp hmid).1
  apply hnotmem
  rw [← hida] at hidy
  rw [List.mem_append] at hy ⊢
  rcases hy with hy | hy
  · exact Or.inl (hidy ▸ List.mem_map_of_mem idf hy)
  · exact Or.inr (hidy ▸ List.mem_map_of_mem idf hy)

/-- C7: a delete attempt by an authenticated actor on a post or
comment they do not own finds nothing in the ownership-scoped queryset
— a NotFound outcome with the store unchanged — while the resource's
author's own attempt deletes it (no row with the id survives, ids
being unique). -/
theorem blog_C7 (posts : List Post) (comments : List Comment)
    (actor pid cid : Nat) :
    ((∀ p ∈ posts, p.id = pid → p.author ≠ actor) →
      post_delete_view posts actor pid = (DeleteOutcome.notFound, posts)) ∧
    (∀ p ∈ posts, p.id = pid → p.author = actor →
      (post_delete_view posts actor pid).1 = DeleteOutcome.deleted ∧
        ((posts.map Post.id).Nodup →
          ∀ q ∈ (post_delete_view posts actor pid).2, q.id ≠ pid)) ∧
    ((∀ c ∈ comments, c.id = cid → c.author ≠ actor) →
      comment_delete_view comments actor cid =
        (DeleteOutcome.notFound, comments)) ∧
    (∀ c ∈ comments, c.id = cid → c.author = actor →
      (comment_delete_view comments actor cid).1 = DeleteOutcome.deleted ∧
        ((comments.map Comment.id).Nodup →
          ∀ d ∈ (comment_delete_view comments actor cid).2, d.id ≠ cid)) := by
  refine ⟨?_, ?_, ?_, ?_⟩
  · intro h
    simp only [post_delete_view]
    rw [owned_find_eq_none posts Post.author Post.id actor pid h]
  · intro p hp hid hauth
    have hsome := owned_find_isSome posts Post.author Post.id actor pid p
      hp hid hauth
    obtain ⟨w, hw⟩ := Option.isSome_iff_exists.mp hsome
    simp only [post_delete_view]
    rw [hw]
    exact ⟨rfl, fun hnd =>
      eraseP_id_absent posts Post.author Post.id actor pid p hp hid hauth hnd⟩
  · intro h
    simp only [comment_delete_view]
    rw [owned_find_eq_none comments Comment.author Comment.id actor cid h]
  · intro c hc hid hauth
    have hsome := owned_find_isSome comments Comment.author Comment.id actor
      cid c hc hid hauth
    obtain ⟨w, hw⟩ := Option.isSome_iff_exists.mp hsome
    simp only [comment_delete_view]
    rw [hw]
    exact ⟨rfl, fun hnd =>
      eraseP_id_absent comments Comment.author Comment.id actor cid c hc hid
        hauth hnd⟩

/-- C7 witness: user 9 cannot delete user 2's post (NotFound, store
intact); user 2 can, and the row is gone — and the same for a
comment. -/
theorem blog_C7_witness :
    post_delete_view
        [{ id := 3, title := "t", text := "b", author := 2, category := none,
           location := none, pub_date := 0, is_published := true }] 9 3 =
      (DeleteOutcome.notFound,
        [{ id := 3, title := "t", text := "b", author := 2, category := none,
           location := none, pub_date := 0, is_published := true }]) ∧
    (post_delete_view
        [{ id := 3, title := "t", text := "b", author := 2, category := none,
           location := none, pub_date := 0, is_published := true }] 2 3).1 =
      DeleteOutcome.deleted ∧
    comment_delete_view
        [{ id := 6, text := "c", author := 2, post := 3, created_at := 0 }]
        9 6 =
      (DeleteOutcome.notFound,
        [{ id := 6, text := "c", author := 2, post := 3, created_at := 0 }]) :=
  ⟨(blog_C7
      [{ id := 3, title := "t", text := "b", author := 2, category := none,
         location := none, pub_date := 0, is_published := true }] [] 9 3 6).1
      (by decide),
   ((blog_C7
      [{ id := 3, title := "t", text := "b", author := 2, category := none,
         location := none, pub_date := 0, is_published := true }] [] 2 3 6).2.1
      { id := 3, title := "t", text := "b", author := 2, category := none,
        location := none, pub_date := 0, is_published := true }
      (by decide) (by rfl) (by rfl)).1,
   ((blog_C7 []
      [{ id := 6, text := "c", author := 2, post := 3, created_at := 0 }]
      9 3 6).2.2.1 (by decide))⟩

/-- Any two admissible outputs of `order_by(minus pub_date)` on the
same contents carry the same timestamp sequence: sorted permutations
agree on the sort key even where tie order is free. -/
lemma order_by_key_deterministic (input o1 o2 : List Post)
    (h1 : order_by_pub_date_desc input o1)
    (h2 : order_by_pub_date_desc input o2) :
    o1.map Post.pub_date = o2.map Post.pub_date := by
  haveI : IsAntisymm Int (fun a b => b ≤ a) :=
    ⟨fun a b hab hba => le_antisymm hba hab⟩
  have hperm : (o1.map Post.pub_date).Perm (o2.map Post.pub_date) :=
    (h1.1.symm.trans h2.1).map Post.pub_date
  have s1 : (o1.map Post.pub_date).Pairwise (fun a b => b ≤ a) := by
    rw [List.pairwise_map]
    exact h1.2
  have s2 : (o2.map Post.pub_date).Pairwise (fun a b => b ≤ a) := by
    rw [List.pairwise_map]
    exact h2.2
  exact List.eq_of_perm_of_sorted hperm s1 s2

/-- C8 counterexample: two home-feed posts with equal `pub_date` —
both interleavings are admissible outputs of the code's ordering
clause (`order_by(minus pub_date)` with no secondary key), and they
differ, so the output order is not deterministic and no fixed
secondary tie-break key exists in the code. -/
theorem blog_C8_counterexample :
    index_feed_rel
        [{ id := 1, title := "a", text := "x", author := 1,
           category := some { id := 1, slug := "c", is_published := true },
           location := none, pub_date := 0, is_published := true },
         { id := 2, title := "b", text := "y", author := 1,
           category := some { id := 1, slug := "c", is_published := true },
           location := none, pub_date := 0, is_published := true }] 0
        [{ id := 1, title := "a", text := "x", author := 1,
           category := some { id := 1, slug := "c", is_published := true },
           location := none, pub_date := 0, is_published := true },
         { id := 2, title := "b", text := "y", author := 1,
           category := some { id := 1, slug := "c", is_published := true },
           location := none, pub_date := 0, is_published := true }] ∧
    index_feed_rel
        [{ id := 1, title := "a", text := "x", author := 1,
           category := some { id := 1, slug := "c", is_published := true },
           location := none, pub_date := 0, is_published := true },
         { id := 2, title := "b", text := "y", author := 1,
           category := some { id := 1, slug := "c", is_published := true },
           location := none, pub_date := 0, is_published := true }] 0
        [{ id := 2, title := "b", text := "y", author := 1,
           category := some { id := 1, slug := "c", is_published := true },
           location := none, pub_date := 0, is_published := true },
         { id := 1, title := "a", text := "x", author := 1,
           category := some { id := 1, slug := "c", is_published := true },
           location := none, pub_date := 0, is_published := true }] ∧
    ([{ id := 1, title := "a", text := "x", author := 1,
        category := some { id := 1, slug := "c", is_published := true },
        location := none, pub_date := 0, is_published := true },
      { id := 2, title := "b", text := "y", author := 1,
        category := some { id := 1, slug := "c", is_published := true },
        location := none, pub_date := 0, is_published := true }]
      : List Post) ≠
      [{ id := 2, title := "b", text := "y", author := 1,
         category := some { id := 1, slug := "c", is_published := true },
         location := none, pub_date := 0, is_published := true },
       { id := 1, title := "a", text := "x", author := 1,
         category := some { id := 1, slug := "c", is_published := true },
         location := none, pub_date := 0, is_published := true }] := by
  refine ⟨⟨List.Perm.refl _, ?_⟩, ⟨List.Perm.swap _ _ _, ?_⟩, by decide⟩ <;>
    · unfold sorted_by_pub_date_desc
      simp

/-- C8 amended: every listing scope orders by `pub_date` descending
and by nothing else — the same single-key ordering clause across all
three scopes.  Every admissible output is a sorted permutation of the
scope's filtered contents, and the timestamp sequence is determined,
but the relative order of equal timestamps is left to the store (no
secondary tie-break key exists). -/
theorem blog_C8_amended (posts out out1 out2 : List Post) (now : Int)
    (c : Category) (owner : Nat) (v : Viewer) :
    (index_feed_rel posts now out →
      sorted_by_pub_date_desc out ∧ (index_queryset_posts posts now).Perm out) ∧
    (index_feed_rel posts now out1 → index_feed_rel posts now out2 →
      out1.map Post.pub_date = out2.map Post.pub_date) ∧
    (category_feed_rel posts c now out →
      sorted_by_pub_date_desc out ∧ (category_feed_posts posts c now).Perm out) ∧
    (category_feed_rel posts c now out1 → category_feed_rel posts c now out2 →
      out1.map Post.pub_date = out2.map Post.pub_date) ∧
    (profile_feed_rel posts owner v now out →
      sorted_by_pub_date_desc out ∧ (profile_posts posts owner v now).Perm out) ∧
    (profile_feed_rel posts owner v now out1 →
      profile_feed_rel posts owner v now out2 →
      out1.map Post.pub_date = out2.map Post.pub_date) := by
  refine ⟨fun h => ⟨h.2, h.1⟩,
    fun h1 h2 => order_by_key_deterministic _ _ _ h1 h2,
    fun h => ⟨h.2, h.1⟩,
    fun h1 h2 => order_by_key_deterministic _ _ _ h1 h2,
    fun h => ⟨h.2, h.1⟩,
    fun h1 h2 => order_by_key_deterministic _ _ _ h1 h2⟩

/-- C8 amended, witness: a one-post home feed — its single admissible
output is sorted and is a permutation of the filtered contents. -/
theorem blog_C8_amended_witness :
    sorted_by_pub_date_desc
        [{ id := 1, title := "a", text := "x", author := 1,
           category := some { id := 1, slug := "c", is_published := true },
           location := none, pub_date := 0, is_published := true }] ∧
    (index_queryset_posts
        [{ id := 1, title := "a", text := "x", author := 1,
           category := some { id := 1, slug := "c", is_published := true },
           location := none, pub_date := 0, is_published := true }] 0).Perm
      [{ id := 1, title := "a", text := "x", author := 1,
         category := some { id := 1, slug := "c", is_published := true },
         location := none, pub_date := 0, is_published := true }] :=
  (blog_C8_amended
      [{ id := 1, title := "a", text := "x", author := 1,
         category := some { id := 1, slug := "c", is_published := true },
         location := none, pub_date := 0, is_published := true }]
      [{ id := 1, title := "a", text := "x", author := 1,
         category := some { id := 1, slug := "c", is_published := true },
         location := none, pub_date := 0, is_published := true }]
      [] [] 0 { id := 1, slug := "c", is_published := true } 1
      Viewer.anonymous).1
    ⟨List.Perm.refl _, by unfold sorted_by_pub_date_desc; simp⟩

end Blogicum
